import Mathlib

/-!
# GatotKACA search front end (`static/main.js`): a shallow embedding

The script is browser glue around five JSON endpoints.  It is embedded as
pure functions over an explicit page state:

* module variables (`currentPage`, `totalPages`, `currentQuery`, ...) and the
  DOM properties the script reads or writes are fields of `Page`;
* `alert`, `fetch` and `console.error` calls are appended to logs inside
  `Page`, so "issues no request" is a statement about the `requests` log;
* what the outside world answers (the backend response, the clock, the OS
  colour scheme, the lower-casing of the platform) is an argument;
* an `async` function is embedded in two parts, the statements before its
  `await` and the statements after it; a session (`Session`, `Event`) may run
  other handlers between the two, as the browser does.

Numbers are JavaScript numbers restricted to the values page arithmetic can
produce from integers: the integer-valued binary64 values, the two infinities
and NaN (`JsNum`), with every sum and product rounded as binary64 rounds it.
Strings are Lean strings (sequences of Unicode scalar values).
-/

namespace GatotKaca

/-! ## Numbers as the platform treats them -/

/-- A JavaScript number that is integer-valued, infinite or NaN.  A value
`fin n` stands for the binary64 value `n`; the functions below produce only
representable `n`.  The sign of zero is not kept: the script never observes
it. -/
inductive JsNum where
  | fin (n : Int)
  | posInf
  | negInf
  | nan
deriving DecidableEq

instance (n : Nat) : OfNat JsNum n := ⟨JsNum.fin n⟩

namespace JsNum

/-- The spacing of binary64 values around the natural number `a`: the least
power of two `u` with `a / u < 2 ^ 53`, searched from `u` upwards. -/
def ulpAux : Nat → Nat → Nat → Nat
  | 0, _, u => u
  | fuel + 1, a, u => if a / u < 2 ^ 53 then u else ulpAux fuel a (2 * u)

/-- Round a natural number to 53 significant bits, ties to even. -/
def roundNat (a : Nat) : Nat :=
  let u := ulpAux 1100 a 1
  let q := a / u
  let r := a % u
  if 2 * r > u ∨ (2 * r = u ∧ q % 2 = 1) then (q + 1) * u else q * u

/-- The bound `2 ^ 1024`: a rounded magnitude that reaches it is infinite. -/
def overflow : Nat := 2 ^ 256 * 2 ^ 256 * 2 ^ 256 * 2 ^ 256

/-- The binary64 value nearest to an integer (round to nearest, ties to even,
overflow to an infinity): what `JSON.parse` gives for an integer literal and
what an arithmetic operation gives for an exact integer result. -/
def ofInt (n : Int) : JsNum :=
  let r := roundNat n.natAbs
  if r ≥ overflow then (if n < 0 then negInf else posInf)
  else fin (if n < 0 then -(r : Int) else r)

/-- The operator `+` on numbers. -/
def add : JsNum → JsNum → JsNum
  | fin a, fin b => ofInt (a + b)
  | nan, _ => nan
  | _, nan => nan
  | posInf, negInf => nan
  | negInf, posInf => nan
  | posInf, _ => posInf
  | _, posInf => posInf
  | negInf, _ => negInf
  | _, negInf => negInf

/-- Unary minus. -/
def neg : JsNum → JsNum
  | fin a => fin (-a)
  | posInf => negInf
  | negInf => posInf
  | nan => nan

/-- The operator `-` on numbers. -/
def sub (a b : JsNum) : JsNum := add a (neg b)

/-- The operator `*` on numbers. -/
def mul : JsNum → JsNum → JsNum
  | fin a, fin b => ofInt (a * b)
  | nan, _ => nan
  | _, nan => nan
  | fin a, posInf => if a = 0 then nan else if a < 0 then negInf else posInf
  | fin a, negInf => if a = 0 then nan else if a < 0 then posInf else negInf
  | posInf, fin b => if b = 0 then nan else if b < 0 then negInf else posInf
  | negInf, fin b => if b = 0 then nan else if b < 0 then posInf else negInf
  | posInf, posInf => posInf
  | negInf, negInf => posInf
  | posInf, negInf => negInf
  | negInf, posInf => negInf

/-- The operator `<=` on numbers; any comparison with NaN is false. -/
def le : JsNum → JsNum → Bool
  | fin a, fin b => decide (a ≤ b)
  | nan, _ => false
  | _, nan => false
  | negInf, _ => true
  | _, posInf => true
  | _, _ => false

/-- The operator `<` on numbers. -/
def lt : JsNum → JsNum → Bool
  | fin a, fin b => decide (a < b)
  | nan, _ => false
  | _, nan => false
  | posInf, _ => false
  | _, negInf => false
  | _, _ => true

/-- The operator `>=` on numbers. -/
def ge (a b : JsNum) : Bool := le b a

/-- The operator `>` on numbers. -/
def gt (a b : JsNum) : Bool := lt b a

/-- Truthiness of a number: zero and NaN are falsy. -/
def truthy : JsNum → Bool
  | fin a => decide (a ≠ 0)
  | nan => false
  | _ => true

/-- The function `Math.max` on two numbers. -/
def max (a b : JsNum) : JsNum :=
  match a, b with
  | nan, _ => nan
  | _, nan => nan
  | _, _ => if lt a b then b else a

end JsNum

/-! ## Strings as the platform treats them -/

/-- White space and line terminators that `String.prototype.trim` strips
(ECMAScript `WhiteSpace` and `LineTerminator` productions), used by
`doSearch` through `.value.trim()`. -/
def isJsWhiteSpace (c : Char) : Bool :=
  let n := c.toNat
  n = 0x09 || n = 0x0A || n = 0x0B || n = 0x0C || n = 0x0D || n = 0x20 ||
  n = 0xA0 || n = 0x1680 || (0x2000 ≤ n && n ≤ 0x200A) || n = 0x2028 ||
  n = 0x2029 || n = 0x202F || n = 0x205F || n = 0x3000 || n = 0xFEFF

/-- Embedding of `String.prototype.trim`: white space removed at both ends. -/
def jsTrim (s : String) : String :=
  String.mk (((s.data.dropWhile isJsWhiteSpace).reverse.dropWhile isJsWhiteSpace).reverse)

/-- Embedding of `String.prototype.includes` with a string argument: `needle`
occurs in `hay` as a contiguous run of characters. -/
def includes (hay needle : String) : Bool :=
  hay.data.tails.any (fun t => needle.data.isPrefixOf t)

/-- Truthiness of a JavaScript string: only the empty string is falsy. -/
def truthy (s : String) : Bool := s != ""

/-- Truthiness of a property that may be absent (`undefined`) or a string. -/
def truthyOpt : Option String → Bool
  | none => false
  | some s => truthy s

/-- The expression `x || d` for a property `x` that is absent or a string. -/
def orElse (x : Option String) (d : String) : String :=
  match x with
  | some s => if truthy s then s else d
  | none => d

/-! ## `escapeHtml` (lines 524-529) -/

/-- Serialisation of one character of a text node by the `innerHTML` getter
(HTML fragment serialisation, "escaping a string" outside attribute mode):
`&`, no-break space, `<` and `>` are replaced, every other character -
the double quote included - is kept. -/
def escapeTextChar (c : Char) : List Char :=
  if c = '&' then "&amp;".data
  else if c.toNat = 0xA0 then "&nbsp;".data
  else if c = '<' then "&lt;".data
  else if c = '>' then "&gt;".data
  else [c]

/-- Embedding of `escapeHtml(text)`: a falsy text gives `''`; otherwise the
text is stored as the `textContent` of a fresh `div` and its `innerHTML` is
returned. -/
def escapeHtml (text : String) : String :=
  if !truthy text then ""
  else String.mk (text.data.flatMap escapeTextChar)

/-! ## `URLSearchParams.prototype.toString` -/

/-- Hexadecimal digit (upper case) of a value below 16. -/
def hexDigit (n : Nat) : Char :=
  if n < 10 then Char.ofNat (48 + n) else Char.ofNat (55 + n)

/-- UTF-8 bytes of a code point. -/
def utf8Bytes (n : Nat) : List Nat :=
  if n < 0x80 then [n]
  else if n < 0x800 then [0xC0 + n / 64, 0x80 + n % 64]
  else if n < 0x10000 then [0xE0 + n / 4096, 0x80 + n / 64 % 64, 0x80 + n % 64]
  else [0xF0 + n / 262144, 0x80 + n / 4096 % 64, 0x80 + n / 64 % 64, 0x80 + n % 64]

/-- The percent-encoding `%XX` of one byte. -/
def percentByte (b : Nat) : List Char :=
  ['%', hexDigit (b / 16), hexDigit (b % 16)]

/-- Characters the `application/x-www-form-urlencoded` serialiser leaves as
they are: ASCII letters and digits, `*`, `-`, `.` and `_`. -/
def formSafe (c : Char) : Bool :=
  c.isAlphanum || c = '*' || c = '-' || c = '.' || c = '_'

/-- One character under the `application/x-www-form-urlencoded` serialiser:
a space becomes `+`, a safe character stays, anything else is percent-encoded
byte by byte. -/
def formEncodeChar (c : Char) : List Char :=
  if c = ' ' then ['+']
  else if formSafe c then [c]
  else (utf8Bytes c.toNat).flatMap percentByte

/-- A string under the `application/x-www-form-urlencoded` serialiser. -/
def formEncode (s : String) : String :=
  String.mk (s.data.flatMap formEncodeChar)

/-- Embedding of `URLSearchParams.prototype.toString`: `name=value` pairs in
insertion order joined by `&`. -/
def paramsToString (ps : List (String × String)) : String :=
  "&".intercalate (ps.map (fun p => formEncode p.1 ++ "=" ++ formEncode p.2))

/-! ## What the script takes from its surroundings -/

/-- Facts of the hosting page and platform that `main.js` uses but does not
define. -/
structure Env where
  /-- Line 386 reads `try {s`: by automatic semicolon insertion the first
  statement of the `try` block is the expression statement `s;`, a read of the
  free identifier `s`.  The script declares no `s`; the read succeeds only when
  the hosting page provides a global of that name, and throws a
  `ReferenceError` (caught at line 413) otherwise. -/
  sResolves : Bool
  /-- The platform's `String.prototype.toLowerCase`. -/
  toLowerCase : String → String
  /-- The platform's `parseFloat(score).toFixed(2)` on the score as received. -/
  scoreText : String → String
  /-- The platform's number-to-string conversion for an integer of magnitude
  `10 ^ 21` or more (exponent notation). -/
  largeNumberText : Int → String

/-- The platform's number-to-string conversion: decimal digits below
`10 ^ 21`, `Infinity`, `-Infinity` and `NaN`. -/
def numberText (env : Env) : JsNum → String
  | JsNum.fin n => if n.natAbs < 10 ^ 21 then toString n else env.largeNumberText n
  | JsNum.posInf => "Infinity"
  | JsNum.negInf => "-Infinity"
  | JsNum.nan => "NaN"

/-- One item of `data.results`. -/
structure SearchResult where
  title : String
  category : Option String
  url : Option String
  snippet : Option String
  score : String
deriving DecidableEq

/-- The JSON body of a `/search` response; `pages` is the integer literal of
the body, if the field is present. -/
structure SearchData where
  results : Option (List SearchResult)
  total : String
  pages : Option Int
deriving DecidableEq

/-- Outcome of `await fetch(url)` followed by `await res.json()` in `doSearch`:
the fetch rejects, or it resolves with `res.ok` and a body (`none` when the
body cannot be read as a JSON object).  The script touches no shared state
between the two `await`s, so they are settled together. -/
inductive SearchFetch where
  | failed
  | status (ok : Bool) (body : Option SearchData)

/-- What the world supplies to one run of `doSearch`: the two readings of
`Date.now()` and the outcome of the fetch. -/
structure SearchWorld where
  start : Int
  finish : Int
  resp : SearchFetch

/-- The anchor of a result card (lines 483-488): the text placed between the
double quotes of `href` and of `aria-label`. -/
structure Link where
  href : String
  ariaLabel : String
deriving DecidableEq

/-- The interpolations of the card template (lines 460-497). -/
structure Card where
  resultNumber : JsNum
  titleHtml : String
  categoryClass : String
  categoryText : String
  snippetHtml : String
  link : Option Link
  scoreText : String
deriving DecidableEq

/-- Content of the element `#results`. -/
inductive ResultsBox where
  | cards (cs : List Card)
  | error (message : String)
deriving DecidableEq

/-- One bar of the category list of the analysis modal (lines 239-263); the
width is `count / total * 100`. -/
structure CategoryBar where
  label : String
  count : JsNum
  total : JsNum
  colorClass : String
deriving DecidableEq

/-- One bar of the word list of the analysis modal (lines 277-291); the width
is `count / maxCount * 100`, the colour is fixed (`bg-green-500`). -/
structure WordBar where
  word : String
  count : JsNum
  maxCount : JsNum
deriving DecidableEq

/-- Content of the element `#analysisContent`. -/
inductive AnalysisContent where
  | initial
  | errorPanel (message : String)
  | charts (totalDocuments : String) (cats : List CategoryBar) (words : List WordBar)
deriving DecidableEq

/-- The module variables of `main.js` (lines 1-5), the DOM properties it reads
and writes, and logs of its calls to `alert`, `fetch` and `console.error`.
A field `xHidden` is the presence of the class `hidden` on element `#x`; the
fields `searchTime`, `currentPageText` and `totalPagesText` hold the number
assigned to the `textContent` of the element. -/
structure Page where
  searchStartTime : JsNum
  currentPage : JsNum
  totalPages : JsNum
  currentQuery : String
  currentCategory : String
  qValue : String
  categoryOptions : List String
  categoryValue : String
  welcomeHidden : Bool
  resultsHidden : Bool
  noResultsHidden : Bool
  searchStatsHidden : Bool
  paginationHidden : Bool
  analysisModalHidden : Bool
  loadingShow : Bool
  resultsBox : ResultsBox
  resultCount : String
  queryText : String
  searchTime : JsNum
  currentPageText : JsNum
  totalPagesText : JsNum
  prevDisabled : Bool
  nextDisabled : Bool
  analysisContent : AnalysisContent
  analyzeBtnLabel : String
  analyzeBtnDisabled : Bool
  focus : String
  alerts : List String
  requests : List String
  consoleErrors : List String

/-- The constant `RESULTS_PER_PAGE` (line 6). -/
def RESULTS_PER_PAGE : JsNum := 20

/-- The `value` setter of a `select` element: every option is deselected, then
the first option whose value equals `v` is selected; the getter returns the
selected option's value, or the empty string when none is selected. -/
def setSelectValue (options : List String) (v : String) : String :=
  if v ∈ options then v else ""

/-! ## Pagination (lines 339-363) -/

/-- Embedding of `updatePaginationUI`. -/
def updatePaginationUI (p : Page) : Page :=
  { p with
    currentPageText := p.currentPage
    totalPagesText := p.totalPages
    prevDisabled := JsNum.le p.currentPage 1
    nextDisabled := JsNum.ge p.currentPage p.totalPages
    paginationHidden := !JsNum.gt p.totalPages 1 }

/-! ## Result rendering (lines 420-522) -/

/-- Badge classes of a result card (lines 446-458). -/
def categoryClass (env : Env) (category : Option String) : String :=
  if truthyOpt category then
    let c := env.toLowerCase (category.getD "")
    if includes c "sejarah" then
      "bg-blue-100 text-blue-700 dark:bg-blue-900/40 dark:text-blue-300"
    else if includes c "wisata" then
      "bg-green-100 text-green-700 dark:bg-green-900/40 dark:text-green-300"
    else if includes c "budaya" then
      "bg-purple-100 text-purple-700 dark:bg-purple-900/40 dark:text-purple-300"
    else if includes c "tradisi" then
      "bg-amber-100 text-amber-700 dark:bg-amber-900/40 dark:text-amber-300"
    else "bg-slate-100 text-slate-600 dark:bg-slate-700 dark:text-slate-300"
  else "bg-slate-100 text-slate-600 dark:bg-slate-700 dark:text-slate-300"

/-- The card built for `result` at position `index` by the callback of
`data.results.forEach` (lines 436-500); `startIndex` is computed at line 434
and `resultNumber` is `startIndex + index + 1`, summed from the left.  The
snippet is passed through unescaped: the `replace` of line 442 substitutes
every `<mark>` and `</mark>` by itself. -/
def renderCard (env : Env) (currentPage : JsNum) (index : Nat) (result : SearchResult) : Card :=
  let startIndex := JsNum.mul (JsNum.sub currentPage 1) RESULTS_PER_PAGE
  { resultNumber := JsNum.add (JsNum.add startIndex (JsNum.ofInt index)) 1
    titleHtml := escapeHtml result.title
    categoryClass := categoryClass env result.category
    categoryText := orElse result.category "Lainnya"
    snippetHtml := orElse result.snippet "Tidak ada preview tersedia."
    link :=
      if truthyOpt result.url then
        some { href := escapeHtml (result.url.getD "")
               ariaLabel := "Baca dokumen " ++ escapeHtml result.title }
      else none
    scoreText := env.scoreText result.score }

/-- The cards appended to `#results`, in the order of `data.results`. -/
def renderCards (env : Env) (currentPage : JsNum) (results : List SearchResult) : List Card :=
  results.enum.map (fun ir => renderCard env currentPage ir.1 ir.2)

/-- Embedding of `displayResults(data, query, searchTime)`. -/
def displayResults (env : Env) (data : SearchData) (query : String) (searchTime : JsNum)
    (p : Page) : Page :=
  let p1 := { p with resultsBox := ResultsBox.cards [] }
  match data.results with
  | none => { p1 with noResultsHidden := false }
  | some results =>
    if results.length = 0 then { p1 with noResultsHidden := false }
    else
      { p1 with
        resultCount := data.total
        queryText := query
        searchTime := searchTime
        searchStatsHidden := false
        resultsBox := ResultsBox.cards (renderCards env p.currentPage results)
        resultsHidden := false }

/-- Embedding of `displayError(message)`. -/
def displayError (message : String) (p : Page) : Page :=
  { p with resultsBox := ResultsBox.error message, resultsHidden := false }

/-! ## The query controller (lines 47-69 and 365-418) -/

/-- The expression `data.pages || 1`. -/
def pagesOrOne : Option Int → JsNum
  | none => 1
  | some n => if JsNum.truthy (JsNum.ofInt n) then JsNum.ofInt n else 1

/-- The URL built at lines 387-397. -/
def searchUrl (env : Env) (q category : String) (page : JsNum) : String :=
  let params :=
    [("q", q), ("limit", numberText env RESULTS_PER_PAGE), ("page", numberText env page)]
  let params := if category != "Semua" then params ++ [("category", category)] else params
  "/search?" ++ paramsToString params

/-- The `catch` block of `doSearch` (lines 413-417). -/
def searchFailed (p : Page) : Page :=
  displayError "Terjadi kesalahan saat mencari. Silakan coba lagi."
    { p with loadingShow := false, consoleErrors := p.consoleErrors ++ ["Search error:"] }

/-- What a call of `doSearch` suspended at `await fetch(url)` keeps: its local
`q` and the page number it put into the URL. -/
structure Pending where
  q : String
  page : JsNum
deriving DecidableEq

/-- The statements of `doSearch(resetPage)` up to `await fetch(url)` (lines
366-398), `now` being the reading of `Date.now()`: the page they leave, and
the suspended call if the fetch was reached. -/
def doSearchBegin (env : Env) (resetPage : Bool) (now : Int) (p : Page) :
    Page × Option Pending :=
  let q := jsTrim p.qValue
  let category := p.categoryValue
  if !truthy q then
    ({ p with alerts := p.alerts ++ ["Silakan masukkan kata kunci pencarian"] }, none)
  else
    let p1 : Page :=
      { p with
        currentQuery := q
        currentCategory := category
        currentPage := if resetPage then 1 else p.currentPage
        searchStartTime := JsNum.ofInt now
        loadingShow := true
        welcomeHidden := true
        resultsHidden := true
        noResultsHidden := true
        searchStatsHidden := true
        paginationHidden := true }
    if !env.sResolves then (searchFailed p1, none)
    else
      ({ p1 with requests := p1.requests ++ [searchUrl env q category p1.currentPage] },
        some { q := q, page := p1.currentPage })

/-- The statements of `doSearch` after its `await`s (lines 400-417), run when
the fetch of the suspended call settles; `finish` is the reading of
`Date.now()` at line 405. -/
def doSearchSettle (env : Env) (call : Pending) (finish : Int) (resp : SearchFetch)
    (p : Page) : Page :=
  match resp with
  | SearchFetch.failed => searchFailed p
  | SearchFetch.status false _ => searchFailed p
  | SearchFetch.status true none => searchFailed p
  | SearchFetch.status true (some data) =>
    let searchTime := JsNum.sub (JsNum.ofInt finish) p.searchStartTime
    let p3 : Page := { p with totalPages := pagesOrOne data.pages, loadingShow := false }
    updatePaginationUI (displayResults env data call.q searchTime p3)

/-- Embedding of `doSearch(resetPage)` run without another handler in
between: the statements before the `await`, then those after it. -/
def doSearch (env : Env) (resetPage : Bool) (w : SearchWorld) (p : Page) : Page :=
  match doSearchBegin env resetPage w.start p with
  | (p1, none) => p1
  | (p1, some call) => doSearchSettle env call w.finish w.resp p1

/-- The statements of `changePage(delta)` and of the `doSearch(false)` it
calls, up to the `await`. -/
def changePageBegin (env : Env) (delta : Int) (now : Int) (p : Page) :
    Page × Option Pending :=
  let newPage := JsNum.add p.currentPage (JsNum.ofInt delta)
  if JsNum.ge newPage 1 && JsNum.le newPage p.totalPages then
    doSearchBegin env false now { p with currentPage := newPage }
  else (p, none)

/-- Embedding of `changePage(delta)` run without another handler in
between. -/
def changePage (env : Env) (delta : Int) (w : SearchWorld) (p : Page) : Page :=
  match changePageBegin env delta w.start p with
  | (p1, none) => p1
  | (p1, some call) => doSearchSettle env call w.finish w.resp p1

/-- The statements of `quickSearch(query)` and of the `doSearch()` it calls,
up to the `await`. -/
def quickSearchBegin (env : Env) (query : String) (now : Int) (p : Page) :
    Page × Option Pending :=
  doSearchBegin env true now
    { p with
      qValue := query
      categoryValue := setSelectValue p.categoryOptions "Semua"
      currentPage := 1 }

/-- Embedding of `quickSearch(query)` run without another handler in
between. -/
def quickSearch (env : Env) (query : String) (w : SearchWorld) (p : Page) : Page :=
  match quickSearchBegin env query w.start p with
  | (p1, none) => p1
  | (p1, some call) => doSearchSettle env call w.finish w.resp p1

/-- Embedding of `resetSearch()`. -/
def resetSearch (p : Page) : Page :=
  { p with
    qValue := ""
    categoryValue := setSelectValue p.categoryOptions "Semua"
    noResultsHidden := true
    resultsHidden := true
    searchStatsHidden := true
    paginationHidden := true
    welcomeHidden := false
    focus := "q" }

/-! ## User sessions -/

/-- The page together with the calls of `doSearch` that are suspended at their
`await`, oldest first. -/
structure Session where
  page : Page
  pending : List Pending

/-- One turn of the event loop: the user edits the query box or the category
selector, a handler of the query controller runs up to its `await`, or the
fetch of the suspended call at position `i` settles and that call resumes. -/
inductive Event where
  | typeQuery (text : String)
  | selectCategory (value : String)
  | doSearch (resetPage : Bool) (now : Int)
  | changePage (delta : Int) (now : Int)
  | quickSearch (query : String) (now : Int)
  | resetSearch
  | settle (i : Nat) (finish : Int) (resp : SearchFetch)

/-- The session after a handler ran up to its `await`. -/
def suspend (s : Session) (r : Page × Option Pending) : Session :=
  { page := r.1, pending := s.pending ++ r.2.toList }

/-- The session after one turn of the event loop. -/
def step (env : Env) (e : Event) (s : Session) : Session :=
  match e with
  | Event.typeQuery text => { s with page := { s.page with qValue := text } }
  | Event.selectCategory value =>
    { s with page :=
      { s.page with categoryValue := setSelectValue s.page.categoryOptions value } }
  | Event.doSearch resetPage now => suspend s (doSearchBegin env resetPage now s.page)
  | Event.changePage delta now => suspend s (changePageBegin env delta now s.page)
  | Event.quickSearch query now => suspend s (quickSearchBegin env query now s.page)
  | Event.resetSearch => { s with page := resetSearch s.page }
  | Event.settle i finish resp =>
    match s.pending[i]? with
    | some call =>
      { page := doSearchSettle env call finish resp s.page
        pending := s.pending.eraseIdx i }
    | none => s

/-- The session after a sequence of turns. -/
def run (env : Env) (events : List Event) (s : Session) : Session :=
  events.foldl (fun t e => step env e t) s

/-- A response covers the page it was asked for: when it is a successful
response, its page count `data.pages || 1` is at least that page. -/
def covers (page : JsNum) (resp : SearchFetch) : Bool :=
  match resp with
  | SearchFetch.status true (some data) => JsNum.le page (pagesOrOne data.pages)
  | _ => true

/-- A turn is orderly when, if it starts `doSearch`, `changePage` or
`quickSearch`, no call is suspended, and, if it settles a fetch, the response
covers the page that call asked for. -/
def orderlyEvent (s : Session) : Event → Bool
  | Event.doSearch _ _ => s.pending.isEmpty
  | Event.changePage _ _ => s.pending.isEmpty
  | Event.quickSearch _ _ => s.pending.isEmpty
  | Event.settle i _ resp =>
    match s.pending[i]? with
    | some call => covers call.page resp
    | none => true
  | _ => true

/-- Every turn of the session is orderly. -/
def orderly (env : Env) : Session → List Event → Bool
  | _, [] => true
  | s, e :: rest => orderlyEvent s e && orderly env (step env e s) rest

/-! ## Invariants of a session -/

/-- What a handler leaves when it runs up to its `await` from the page `pg`:
`1 ≤ currentPage`; `totalPages` as it was; `currentPage ≤ totalPages` if it
held before; a suspended call that asked for the page left in `currentPage`;
and no suspended call where the statement `s;` throws. -/
def BeginOk (env : Env) (pg : Page) (r : Page × Option Pending) : Prop :=
  JsNum.le 1 r.1.currentPage = true ∧
  r.1.totalPages = pg.totalPages ∧
  (JsNum.le pg.currentPage pg.totalPages = true →
    JsNum.le r.1.currentPage r.1.totalPages = true) ∧
  (∀ call, r.2 = some call → call.page = r.1.currentPage) ∧
  (env.sResolves = false → r.2 = none)

/-- The part of the invariant that needs orderly turns: `currentPage` is at
most `totalPages`, and every suspended call asked for the current page. -/
def InRange (s : Session) : Prop :=
  JsNum.le s.page.currentPage s.page.totalPages = true ∧
  ∀ call ∈ s.pending, call.page = s.page.currentPage

/-! ## The category loader (lines 123-150) -/

/-- The JSON body of a `/categories` response. -/
structure CategoriesData where
  error : Option String
  categories : Option (List String)

/-- Outcome of `fetch('/categories')` followed by `res.json()`: `none` when
either rejects. -/
abbrev CategoriesFetch := Option CategoriesData

/-- The option values of the rebuilt selector: `"Semua"`, then the truthy
entries of the list in the order received (lines 132-141). -/
def rebuiltOptions (categories : List String) : List String :=
  "Semua" :: categories.filter truthy

/-- Embedding of `loadCategories()`.  After line 132 the selector has the
single option `"Semua"`, which a drop-down selector selects; appended options
are not selected; line 144 then runs the `value` setter when the previous
value is truthy. -/
def loadCategories (resp : CategoriesFetch) (p : Page) : Page :=
  let p0 := { p with requests := p.requests ++ ["/categories"] }
  match resp with
  | none => { p0 with consoleErrors := p0.consoleErrors ++ ["Error loading categories:"] }
  | some data =>
    match data.categories with
    | none => p0
    | some categories =>
      if truthyOpt data.error then p0
      else
        let currentValue := p0.categoryValue
        let options := rebuiltOptions categories
        { p0 with
          categoryOptions := options
          categoryValue :=
            if truthy currentValue then setSelectValue options currentValue else "Semua" }

/-! ## Dark mode (lines 27-45) -/

/-- The theme state: the entry `theme` of `localStorage` (`none` when the key
is absent) and whether the root element carries the class `dark`. -/
structure Theme where
  stored : Option String
  dark : Bool
deriving DecidableEq

/-- The class decision of `initDarkMode()` (lines 30-34) for a stored value
and the OS preference `prefers-color-scheme: dark`. -/
def initDarkMode (stored : Option String) (osDark : Bool) : Theme :=
  { stored := stored
    dark := stored = some "dark" || (stored.isNone && osDark) }

/-- The click handler of the dark-mode toggle (lines 36-44). -/
def toggleClick (t : Theme) : Theme :=
  if t.dark then { stored := some "light", dark := false }
  else { stored := some "dark", dark := true }

/-- The theme after `n` clicks on the toggle. -/
def clicks : Nat → Theme → Theme
  | 0, t => t
  | n + 1, t => toggleClick (clicks n t)

/-! ## Corpus analysis (lines 195-337) -/

/-- One entry of `data.categories`; `count` is the integer literal of the
body. -/
structure CategoryCount where
  category : Option String
  count : Int

/-- One entry of `data.top_words`. -/
structure WordCount where
  word : String
  count : Int

/-- The JSON body of an `/analyze` response. -/
structure AnalysisData where
  error : Option String
  total_documents : String
  categories : Option (List CategoryCount)
  top_words : Option (List WordCount)

/-- Outcome of `fetch('/analyze')` and `res.json()` in `analyzeCorpus`. -/
inductive AnalyzeFetch where
  | failed
  | status (ok : Bool) (code : Nat) (body : Option AnalysisData)

/-- Bar class of a category in the analysis modal (lines 242-251), from the
name as it arrives (`cat.category`). -/
def barColorClass (env : Env) (category : Option String) : String :=
  let c := env.toLowerCase (orElse category "Tanpa kategori")
  if includes c "wisata" then "bg-green-500"
  else if includes c "budaya" then "bg-purple-500"
  else if includes c "sejarah" then "bg-blue-500"
  else "bg-sky-500"

/-- Embedding of `displayAnalysis(data)`; `none` when the body throws a
`TypeError` (`data.categories` or `data.top_words` absent), which happens
before any write to the page.  `totalCount` is the `reduce` of line 237 and
`maxCount` the `Math.max` of line 275, which is `-Infinity` for no words. -/
def displayAnalysis (env : Env) (data : AnalysisData) (p : Page) : Option Page :=
  if truthyOpt data.error then
    some { p with
      analysisContent := AnalysisContent.errorPanel (data.error.getD "")
      analysisModalHidden := false }
  else
    match data.categories, data.top_words with
    | some cats, some words =>
      let totalCount := (cats.map (fun c => JsNum.ofInt c.count)).foldl JsNum.add 0
      let catBars := cats.map (fun c =>
        { label := orElse c.category "Tanpa kategori"
          count := JsNum.ofInt c.count
          total := totalCount
          colorClass := barColorClass env c.category : CategoryBar })
      let counts := words.map (fun x => JsNum.ofInt x.count)
      let maxCount := counts.foldl JsNum.max JsNum.negInf
      let wordBars := words.map (fun x =>
        { word := x.word, count := JsNum.ofInt x.count, maxCount := maxCount : WordBar })
      some { p with
        analysisContent := AnalysisContent.charts data.total_documents catBars wordBars
        analysisModalHidden := false }
    | _, _ => none

/-- The `catch` block of `analyzeCorpus` (lines 209-214). -/
def analyzeFailed (p : Page) : Page :=
  { p with
    consoleErrors := p.consoleErrors ++ ["Analysis error:"]
    alerts := p.alerts ++ ["Terjadi kesalahan saat menganalisis korpus."]
    analyzeBtnLabel := "Analisis Korpus"
    analyzeBtnDisabled := false }

/-- Embedding of `analyzeCorpus()`. -/
def analyzeCorpus (env : Env) (resp : AnalyzeFetch) (p : Page) : Page :=
  let p1 : Page :=
    { p with
      analyzeBtnLabel := "Menganalisis..."
      analyzeBtnDisabled := true
      requests := p.requests ++ ["/analyze"] }
  match resp with
  | AnalyzeFetch.failed => analyzeFailed p1
  | AnalyzeFetch.status false _ _ => analyzeFailed p1
  | AnalyzeFetch.status true _ none => analyzeFailed p1
  | AnalyzeFetch.status true _ (some data) =>
    match displayAnalysis env data p1 with
    | some p2 => { p2 with analyzeBtnLabel := "Analisis Korpus", analyzeBtnDisabled := false }
    | none => analyzeFailed p1

/-- Embedding of `closeAnalysisModal()`. -/
def closeAnalysisModal (p : Page) : Page :=
  { p with analysisModalHidden := true, focus := "analyzeBtn" }

/-! ## Colour families -/

/-- The colour families the two keyword mappings choose between. -/
inductive Family where
  | blue | green | purple | amber | default
deriving DecidableEq, Repr

/-- The family of a badge class of `categoryClass`: named by the colour of its
first class, the slate classes being the default. -/
def badgeFamily (cls : String) : Family :=
  if "bg-blue-".data.isPrefixOf cls.data then Family.blue
  else if "bg-green-".data.isPrefixOf cls.data then Family.green
  else if "bg-purple-".data.isPrefixOf cls.data then Family.purple
  else if "bg-amber-".data.isPrefixOf cls.data then Family.amber
  else Family.default

/-- The family of a bar class of `barColorClass`, the sky class being the
default. -/
def barFamily (cls : String) : Family :=
  if cls = "bg-blue-500" then Family.blue
  else if cls = "bg-green-500" then Family.green
  else if cls = "bg-purple-500" then Family.purple
  else if cls = "bg-amber-500" then Family.amber
  else Family.default

/-! ## Where escaped text is placed -/

/-- Text placed as the content of an element is inert when it holds no `<`:
it can neither open a tag nor close the element. -/
def inertInText (s : String) : Bool := !s.data.contains '<'

/-- Text placed between the double quotes of an attribute is inert when it
holds no `"`: the quoted value ends at the first double quote. -/
def inertInQuotedAttr (s : String) : Bool := !s.data.contains '"'

/-! ## Concrete surroundings used in the worked examples -/

/-- Lower-casing of the ASCII letters, which is what `toLowerCase` does on
ASCII strings. -/
def asciiLower (s : String) : String := String.mk (s.data.map Char.toLower)

/-- A hosting page on which the identifier `s` of line 386 resolves. -/
def envBound : Env :=
  { sResolves := true, toLowerCase := asciiLower, scoreText := fun x => x,
    largeNumberText := fun n => toString n }

/-- A hosting page that defines no global `s`: the script loaded on a page
that has only the elements the script looks up. -/
def envUnbound : Env :=
  { sResolves := false, toLowerCase := asciiLower, scoreText := fun x => x,
    largeNumberText := fun n => toString n }

/-- The page as the script finds it: module variables at their initial values
(lines 1-5), the welcome panel shown, the selector offering `"Semua"`. -/
def freshPage : Page :=
  { searchStartTime := 0
    currentPage := 1
    totalPages := 1
    currentQuery := ""
    currentCategory := "Semua"
    qValue := ""
    categoryOptions := ["Semua"]
    categoryValue := "Semua"
    welcomeHidden := false
    resultsHidden := true
    noResultsHidden := true
    searchStatsHidden := true
    paginationHidden := true
    analysisModalHidden := true
    loadingShow := false
    resultsBox := ResultsBox.cards []
    resultCount := ""
    queryText := ""
    searchTime := 0
    currentPageText := 1
    totalPagesText := 1
    prevDisabled := true
    nextDisabled := true
    analysisContent := AnalysisContent.initial
    analyzeBtnLabel := "Analisis Korpus"
    analyzeBtnDisabled := false
    focus := "q"
    alerts := []
    requests := []
    consoleErrors := [] }

/-- The session at load: the fresh page, no call suspended. -/
def freshSession : Session := { page := freshPage, pending := [] }

/-- A successful `/search` body that reports `pages` pages and no results. -/
def pagesBody (pages : Int) : SearchFetch :=
  SearchFetch.status true (some { results := some [], total := "0", pages := some pages })

/-- A successful `/search` response that reports `pages` pages and no
results. -/
def pagesResponse (pages : Int) : SearchWorld :=
  { start := 0, finish := 5, resp := pagesBody pages }

/-- A search with three pages, a move to page 2, then a move to page 3 whose
response reports one page; every call settles before the next starts. -/
def shrinkingSession : List Event :=
  [ Event.quickSearch "toba" 0, Event.settle 0 5 (pagesBody 3),
    Event.changePage 1 10, Event.settle 0 15 (pagesBody 3),
    Event.changePage 1 20, Event.settle 0 25 (pagesBody 1) ]

/-- A search with three pages, then two moves forward started before either
fetch settles; the fetch for page 3 settles first (3 pages), the fetch for
page 2 last (2 pages). -/
def overlappingSession : List Event :=
  [ Event.quickSearch "toba" 0, Event.settle 0 5 (pagesBody 3),
    Event.changePage 1 10, Event.changePage 1 11,
    Event.settle 1 15 (pagesBody 3), Event.settle 0 16 (pagesBody 2) ]

/-- A search with three pages and a move to page 2, each settled before the
next turn. -/
def orderlySession : List Event :=
  [ Event.quickSearch "toba" 0, Event.settle 0 5 (pagesBody 3),
    Event.changePage 1 10, Event.settle 0 15 (pagesBody 3) ]

/-- A response with two results, used on page 3. -/
def twoResults : SearchData :=
  { results := some
      [ { title := "Danau Toba", category := some "Wisata", url := some "/doc/1",
          snippet := some "<mark>Danau</mark> Toba", score := "9.5" },
        { title := "Candi", category := none, url := none, snippet := none, score := "1" } ]
    total := "42"
    pages := some 3 }

/-- Four results, used on a page whose card numbers pass `2 ^ 53`. -/
def fourResults : List SearchResult :=
  List.replicate 4
    { title := "Candi", category := none, url := none, snippet := none, score := "1" }

/-- The page with "Wisata" selected among the options "Semua", "Wisata". -/
def wisataSelected : Page :=
  { freshPage with categoryOptions := ["Semua", "Wisata"], categoryValue := "Wisata" }

/-- An `/analyze` payload that reports an error. -/
def analysisError : AnalysisData :=
  { error := some "index not found", total_documents := "0", categories := none,
    top_words := none }

/-- A result whose title and URL hold double quotes. -/
def quotedResult : SearchResult :=
  { title := "Toba\" onmouseover=\"alert(1)"
    category := some "Wisata"
    url := some "/doc/1\" onclick=\"alert(2)"
    snippet := some "Danau"
    score := "1" }

/-! # Properties -/

/-! ## Number lemmas -/

/-- The literal `1` is the finite number 1. -/
theorem JsNum.one_eq : (1 : JsNum) = JsNum.fin 1 := rfl

/-- The literal `20` is the finite number 20. -/
theorem JsNum.twenty_eq : (20 : JsNum) = JsNum.fin 20 := rfl

/-- Below `2 ^ 53` the spacing is 1. -/
theorem JsNum.roundNat_exact (a : Nat) (h : a ≤ 2 ^ 53) : JsNum.roundNat a = a := by
  rcases Nat.lt_or_ge a (2 ^ 53) with hlt | hge
  · have hu : JsNum.ulpAux 1100 a 1 = 1 := by
      show (if a / 1 < 2 ^ 53 then 1 else JsNum.ulpAux 1099 a (2 * 1)) = 1
      rw [Nat.div_one, if_pos hlt]
    simp [JsNum.roundNat, hu, Nat.mod_one]
  · have ha : a = 2 ^ 53 := Nat.le_antisymm h hge
    subst ha
    decide

/-- An integer of magnitude at most `2 ^ 53` is a binary64 value. -/
theorem JsNum.ofInt_exact (n : Int) (h : n.natAbs ≤ 2 ^ 53) : JsNum.ofInt n = JsNum.fin n := by
  have hr := JsNum.roundNat_exact n.natAbs h
  have hov : ¬ (n.natAbs ≥ JsNum.overflow) := by
    have : (2 : Nat) ^ 53 < JsNum.overflow := by decide
    omega
  simp only [JsNum.ofInt, hr, hov, if_false]
  congr 1
  split <;> omega

/-- A natural number up to `2 ^ 53` is a binary64 value. -/
theorem JsNum.ofInt_nonneg_exact (n : Int) (h0 : 0 ≤ n) (h : n ≤ 2 ^ 53) :
    JsNum.ofInt n = JsNum.fin n := by
  apply JsNum.ofInt_exact
  have : ((n.natAbs : Nat) : Int) = n := Int.natAbs_of_nonneg h0
  have h2 : ((2 ^ 53 : Nat) : Int) = 2 ^ 53 := by norm_num
  omega

/-- The comparison `<=` is transitive. -/
theorem JsNum.le_trans (a b c : JsNum) (h1 : JsNum.le a b = true) (h2 : JsNum.le b c = true) :
    JsNum.le a c = true := by
  cases a <;> cases b <;> cases c <;> simp [JsNum.le] at *
  omega

/-! ## Pagination controls -/

/-- C5: for integer pages `p` and `t` with `1 ≤ p ≤ t` held in `currentPage`
and `totalPages`, `updatePaginationUI` enables "previous" exactly when
`p - 1 ≥ 1` and "next" exactly when `p + 1 ≤ t` (so "previous" is disabled on
page 1 and "next" on the last page), and shows the pagination bar exactly when
`t > 1`. -/
theorem updatePaginationUI_controls (pg : Page) (p t : Int)
    (hp : pg.currentPage = JsNum.fin p) (ht : pg.totalPages = JsNum.fin t)
    (h1 : 1 ≤ p) (h2 : p ≤ t) :
    ((updatePaginationUI pg).prevDisabled = false ↔ p - 1 ≥ 1) ∧
    ((updatePaginationUI pg).nextDisabled = false ↔ p + 1 ≤ t) ∧
    (p = 1 → (updatePaginationUI pg).prevDisabled = true) ∧
    (p = t → (updatePaginationUI pg).nextDisabled = true) ∧
    ((updatePaginationUI pg).paginationHidden = false ↔ t > 1) := by
  simp only [updatePaginationUI, hp, ht, JsNum.one_eq, JsNum.le, JsNum.ge, JsNum.gt, JsNum.lt,
    decide_eq_false_iff_not, decide_eq_true_eq, Bool.not_eq_false']
  refine ⟨?_, ?_, ?_, ?_, ?_⟩
  all_goals first | omega | trivial

/-- C5 at page 2 of 3: both controls enabled, bar shown. -/
theorem updatePaginationUI_controls_witness :
    (((updatePaginationUI { freshPage with currentPage := 2, totalPages := 3 }).prevDisabled = false
        ↔ (2 : Int) - 1 ≥ 1) ∧
      ((updatePaginationUI { freshPage with currentPage := 2, totalPages := 3 }).nextDisabled = false
        ↔ (2 : Int) + 1 ≤ 3) ∧
      ((2 : Int) = 1 →
        (updatePaginationUI { freshPage with currentPage := 2, totalPages := 3 }).prevDisabled = true) ∧
      ((2 : Int) = 3 →
        (updatePaginationUI { freshPage with currentPage := 2, totalPages := 3 }).nextDisabled = true) ∧
      ((updatePaginationUI { freshPage with currentPage := 2, totalPages := 3 }).paginationHidden = false
        ↔ (3 : Int) > 1)) ∧
    (updatePaginationUI { freshPage with currentPage := 2, totalPages := 3 }).prevDisabled = false :=
  ⟨updatePaginationUI_controls { freshPage with currentPage := 2, totalPages := 3 } 2 3 rfl rfl
    (by decide) (by decide), by decide⟩

/-! ## Blank queries -/

/-- A text made of white space only trims to the empty string. -/
theorem jsTrim_blank (s : String) (h : s.data.all isJsWhiteSpace = true) : jsTrim s = "" := by
  have h1 : s.data.dropWhile isJsWhiteSpace = [] := by
    rw [List.dropWhile_eq_nil_iff]
    intro c hc
    exact (List.all_eq_true.mp h) c hc
  simp [jsTrim, h1]

/-- On a blank query the statements before the `await` only raise the alert,
and no call is left suspended. -/
theorem doSearchBegin_blank_query (env : Env) (resetPage : Bool) (now : Int) (pg : Page)
    (h : pg.qValue.data.all isJsWhiteSpace = true) :
    doSearchBegin env resetPage now pg
      = ({ pg with alerts := pg.alerts ++ ["Silakan masukkan kata kunci pencarian"] }, none) := by
  have hq : jsTrim pg.qValue = "" := jsTrim_blank _ h
  simp [doSearchBegin, hq, truthy]

/-- C3: when the query box is empty or holds white space only, `doSearch`
(for either value of `resetPage` and whatever the hosting page or the backend
would do) changes nothing but the alert log, to which it adds the fixed
message: no request is issued, `currentQuery`, `currentCategory`,
`currentPage`, `totalPages` and every panel's visibility stay as they were. -/
theorem doSearch_blank_query (env : Env) (resetPage : Bool) (w : SearchWorld) (pg : Page)
    (h : pg.qValue.data.all isJsWhiteSpace = true) :
    doSearch env resetPage w pg
        = { pg with alerts := pg.alerts ++ ["Silakan masukkan kata kunci pencarian"] } ∧
    (doSearch env resetPage w pg).requests = pg.requests ∧
    (doSearch env resetPage w pg).alerts = pg.alerts ++ ["Silakan masukkan kata kunci pencarian"] ∧
    (doSearch env resetPage w pg).currentQuery = pg.currentQuery ∧
    (doSearch env resetPage w pg).currentCategory = pg.currentCategory ∧
    (doSearch env resetPage w pg).currentPage = pg.currentPage ∧
    (doSearch env resetPage w pg).totalPages = pg.totalPages ∧
    (doSearch env resetPage w pg).welcomeHidden = pg.welcomeHidden ∧
    (doSearch env resetPage w pg).resultsHidden = pg.resultsHidden ∧
    (doSearch env resetPage w pg).noResultsHidden = pg.noResultsHidden ∧
    (doSearch env resetPage w pg).searchStatsHidden = pg.searchStatsHidden ∧
    (doSearch env resetPage w pg).paginationHidden = pg.paginationHidden ∧
    (doSearch env resetPage w pg).analysisModalHidden = pg.analysisModalHidden ∧
    (doSearch env resetPage w pg).loadingShow = pg.loadingShow := by
  have hd : doSearch env resetPage w pg
      = { pg with alerts := pg.alerts ++ ["Silakan masukkan kata kunci pencarian"] } := by
    simp [doSearch, doSearchBegin_blank_query env resetPage w.start pg h]
  rw [hd]
  simp

/-- C3 on a query box holding a space, a tab and a line feed, with a backend
that would have answered. -/
theorem doSearch_blank_query_witness :
    (doSearch envBound true (pagesResponse 3) { freshPage with qValue := " \t\n" }).requests = [] ∧
    (doSearch envBound true (pagesResponse 3) { freshPage with qValue := " \t\n" }).alerts
      = ["Silakan masukkan kata kunci pencarian"] :=
  ⟨(doSearch_blank_query envBound true (pagesResponse 3) { freshPage with qValue := " \t\n" }
      (by decide)).2.1,
   (doSearch_blank_query envBound true (pagesResponse 3) { freshPage with qValue := " \t\n" }
      (by decide)).2.2.1⟩

/-! ## Card numbering -/

/-- The cards are as many as the results. -/
theorem renderCards_length (env : Env) (currentPage : JsNum) (results : List SearchResult) :
    (renderCards env currentPage results).length = results.length := by
  simp [renderCards]

/-- The card at position `i` is the one built from the result at position
`i`. -/
theorem renderCards_getElem? (env : Env) (currentPage : JsNum) (results : List SearchResult)
    (i : Nat) :
    (renderCards env currentPage results)[i]?
      = (results[i]?).map (fun r => renderCard env currentPage i r) := by
  simp only [renderCards, List.getElem?_map, List.getElem?_enum]
  cases results[i]? <;> rfl

/-- While `(p-1)*20 + i + 1` stays within `2 ^ 53`, the number of the card at
index `i` on page `p` is exactly that integer. -/
theorem renderCard_resultNumber (env : Env) (p : Int) (i : Nat) (r : SearchResult)
    (hp : 1 ≤ p) (hb : (p - 1) * 20 + i + 1 ≤ 2 ^ 53) :
    (renderCard env (JsNum.fin p) i r).resultNumber = JsNum.fin ((p - 1) * 20 + i + 1) := by
  have hi : (0 : Int) ≤ i := Int.natCast_nonneg i
  have e1 : JsNum.sub (JsNum.fin p) 1 = JsNum.fin (p - 1) := by
    show JsNum.ofInt (p + -1) = JsNum.fin (p - 1)
    rw [JsNum.ofInt_nonneg_exact _ (by omega) (by omega)]
    rfl
  have e2 : JsNum.mul (JsNum.fin (p - 1)) RESULTS_PER_PAGE = JsNum.fin ((p - 1) * 20) := by
    show JsNum.ofInt ((p - 1) * 20) = JsNum.fin ((p - 1) * 20)
    exact JsNum.ofInt_nonneg_exact _ (by omega) (by omega)
  have e3 : JsNum.ofInt (i : Int) = JsNum.fin i :=
    JsNum.ofInt_nonneg_exact _ hi (by omega)
  have e4 : JsNum.add (JsNum.fin ((p - 1) * 20)) (JsNum.fin i) = JsNum.fin ((p - 1) * 20 + i) := by
    show JsNum.ofInt ((p - 1) * 20 + i) = _
    exact JsNum.ofInt_nonneg_exact _ (by omega) (by omega)
  have e5 : JsNum.add (JsNum.fin ((p - 1) * 20 + i)) 1 = JsNum.fin ((p - 1) * 20 + i + 1) := by
    show JsNum.ofInt ((p - 1) * 20 + i + 1) = _
    exact JsNum.ofInt_nonneg_exact _ (by omega) hb
  simp only [renderCard, e1, e2, e3, e4, e5]

/-- C4, as amended: on a current page `p ≥ 1`, for a response with `N ≥ 1`
results such that the last number `(p-1)*20 + N` does not exceed `2 ^ 53`,
`displayResults` puts exactly `N` cards into `#results`, the card at index `i`
being the one built from the `i`-th result of the response and carrying the
number `(p-1)*20 + i + 1`; the first number is `(p-1)*20 + 1` and the last
`(p-1)*20 + N`. -/
theorem displayResults_card_numbers (env : Env) (data : SearchData) (query : String)
    (searchTime : JsNum) (pg : Page) (p : Int) (results : List SearchResult)
    (hcp : pg.currentPage = JsNum.fin p) (hp : 1 ≤ p)
    (hres : data.results = some results) (hN : 1 ≤ results.length)
    (hb : (p - 1) * 20 + results.length ≤ 2 ^ 53) :
    ∃ cards : List Card,
      (displayResults env data query searchTime pg).resultsBox = ResultsBox.cards cards ∧
      (displayResults env data query searchTime pg).resultsHidden = false ∧
      cards.length = results.length ∧
      (∀ i, ∀ r, results[i]? = some r →
        cards[i]? = some (renderCard env pg.currentPage i r) ∧
        (cards[i]?).map Card.resultNumber = some (JsNum.fin ((p - 1) * 20 + i + 1))) ∧
      (cards.head?).map Card.resultNumber = some (JsNum.fin ((p - 1) * 20 + 1)) ∧
      (cards.getLast?).map Card.resultNumber
        = some (JsNum.fin ((p - 1) * 20 + results.length)) := by
  have hne : results.length ≠ 0 := by omega
  have hnum : ∀ i, i < results.length → ∀ r,
      (renderCard env pg.currentPage i r).resultNumber = JsNum.fin ((p - 1) * 20 + i + 1) := by
    intro i hi r
    rw [hcp]
    exact renderCard_resultNumber env p i r hp (by omega)
  refine ⟨renderCards env pg.currentPage results, ?_, ?_, renderCards_length _ _ _, ?_, ?_, ?_⟩
  · simp [displayResults, hres, hne]
  · simp [displayResults, hres, hne]
  · intro i r hr
    have hi : i < results.length := (List.getElem?_eq_some_iff.mp hr).1
    rw [renderCards_getElem?, hr]
    simp [hnum i hi r]
  · rw [List.head?_eq_getElem?, renderCards_getElem?]
    cases results with
    | nil => simp at hN
    | cons r rest =>
      have h0 := hnum 0 (by simp) r
      simpa using h0
  · rw [List.getLast?_eq_getElem?, renderCards_getElem?, renderCards_length]
    have hlt : results.length - 1 < results.length := by omega
    rw [List.getElem?_eq_getElem hlt]
    simp only [Option.map_some', Option.some.injEq, hnum _ hlt]
    congr 1
    omega

/-- C4 amended, on page 3 with two results: two cards, numbered 41 and 42. -/
theorem displayResults_card_numbers_witness :
    ∃ cards : List Card,
      (displayResults envBound twoResults "toba" 7 { freshPage with currentPage := 3 }).resultsBox
        = ResultsBox.cards cards ∧
      cards.length = 2 ∧
      cards.map Card.resultNumber = [41, 42] := by
  obtain ⟨cards, hbox, _, hlen, hall, _, _⟩ :=
    displayResults_card_numbers envBound twoResults "toba" 7 { freshPage with currentPage := 3 }
      3 _ rfl (by decide) rfl (by decide) (by decide)
  refine ⟨cards, hbox, hlen, ?_⟩
  have h0 := (hall 0 _ rfl).2
  have h1 := (hall 1 _ rfl).2
  match cards, hlen with
  | [a, b], _ =>
    simp only [List.getElem?_cons_zero, List.getElem?_cons_succ, Option.map_some',
      Option.some.injEq] at h0 h1
    simp only [List.map_cons, List.map_nil, h0, h1]
    decide

/-- C4 as stated fails: on page 450359962737051, where `(p-1)*20` is
`9007199254741000 > 2 ^ 53`, four results get the numbers `...1000`,
`...1000`, `...1004`, `...1004` - not the consecutive `...1001` to
`...1004` - because every sum is rounded to a binary64 value. -/
theorem displayResults_card_numbers_counterexample :
    (displayResults envBound { results := some fourResults, total := "4", pages := none } "toba" 7
      { freshPage with currentPage := 450359962737051 }).resultsBox
      = ResultsBox.cards (renderCards envBound 450359962737051 fourResults) ∧
    (renderCards envBound 450359962737051 fourResults).map Card.resultNumber
      = [9007199254741000, 9007199254741000, 9007199254741004, 9007199254741004] ∧
    (renderCards envBound 450359962737051 fourResults).map Card.resultNumber
      ≠ [9007199254741001, 9007199254741002, 9007199254741003, 9007199254741004] := by
  decide

/-! ## Dark mode -/

/-- A click flips the displayed mode. -/
theorem toggleClick_dark (t : Theme) : (toggleClick t).dark = !t.dark := by
  unfold toggleClick
  cases h : t.dark <;> simp

/-- A load that follows a click applies the mode the click displayed, under
any OS preference. -/
theorem initDarkMode_after_click (t : Theme) (osDark : Bool) :
    (initDarkMode (toggleClick t).stored osDark).dark = (toggleClick t).dark := by
  unfold toggleClick
  cases h : t.dark <;> simp [initDarkMode]

/-- C8: whatever theme value was stored at first (`none` for an absent key, or
any string) and whatever the OS preference was, after `n ≥ 1` clicks on the
toggle a new page load - `initDarkMode` on the stored value the clicks left,
under any OS preference - applies the mode displayed after the last click;
and every click flips the displayed mode. -/
theorem darkMode_persists (stored : Option String) (osDark osDarkLater : Bool) (n : Nat)
    (hn : 1 ≤ n) :
    (initDarkMode (clicks n (initDarkMode stored osDark)).stored osDarkLater).dark
        = (clicks n (initDarkMode stored osDark)).dark ∧
    ∀ k, (clicks (k + 1) (initDarkMode stored osDark)).dark
        = !(clicks k (initDarkMode stored osDark)).dark := by
  constructor
  · obtain ⟨m, rfl⟩ : ∃ m, n = m + 1 := ⟨n - 1, by omega⟩
    simp only [clicks]
    exact initDarkMode_after_click _ _
  · intro k
    simp only [clicks, toggleClick_dark]

/-- C8 with the unrecognised stored value `"auto"`, a light OS at first, three
clicks, and a dark OS at the next load: the page stays dark as displayed. -/
theorem darkMode_persists_witness :
    (clicks 3 (initDarkMode (some "auto") false)).dark = true ∧
    (initDarkMode (clicks 3 (initDarkMode (some "auto") false)).stored false).dark = true := by
  have h := (darkMode_persists (some "auto") false false 3 (by decide)).1
  have hd : (clicks 3 (initDarkMode (some "auto") false)).dark = true := by decide
  exact ⟨hd, h.trans hd⟩

/-! ## The page invariant -/

/-- The renderer `displayResults` leaves `currentPage` and `totalPages` alone. -/
theorem displayResults_pages (env : Env) (data : SearchData) (query : String) (t : JsNum)
    (pg : Page) :
    (displayResults env data query t pg).currentPage = pg.currentPage ∧
    (displayResults env data query t pg).totalPages = pg.totalPages := by
  unfold displayResults
  cases data.results with
  | none => simp
  | some results => by_cases h : results.length = 0 <;> simp [h]

/-- The statements before the `await` leave 1 in `currentPage` when they reset
on a non-blank query, the previous page otherwise; they leave `totalPages`
alone; a suspended call has asked for the page they leave; and no call is
suspended where the statement `s;` throws. -/
theorem doSearchBegin_pages (env : Env) (resetPage : Bool) (now : Int) (pg : Page) :
    (doSearchBegin env resetPage now pg).1.currentPage
      = (if truthy (jsTrim pg.qValue) && resetPage then 1 else pg.currentPage) ∧
    (doSearchBegin env resetPage now pg).1.totalPages = pg.totalPages ∧
    (∀ call, (doSearchBegin env resetPage now pg).2 = some call →
      call.page = (doSearchBegin env resetPage now pg).1.currentPage) ∧
    (env.sResolves = false → (doSearchBegin env resetPage now pg).2 = none) := by
  unfold doSearchBegin
  cases hq : truthy (jsTrim pg.qValue) <;> cases hs : env.sResolves <;> cases resetPage <;>
    simp [hq, hs, searchFailed, displayError]

/-- The statements after the `await` leave `currentPage` alone and write the
page count of a successful response into `totalPages`. -/
theorem doSearchSettle_pages (env : Env) (call : Pending) (finish : Int) (resp : SearchFetch)
    (pg : Page) :
    (doSearchSettle env call finish resp pg).currentPage = pg.currentPage ∧
    (doSearchSettle env call finish resp pg).totalPages
      = (match resp with
        | SearchFetch.status true (some data) => pagesOrOne data.pages
        | _ => pg.totalPages) := by
  unfold doSearchSettle
  rcases resp with _ | ⟨ok, body⟩
  · simp [searchFailed, displayError]
  · cases ok
    · simp [searchFailed, displayError]
    · cases body with
      | none => simp [searchFailed, displayError]
      | some data =>
        simp [updatePaginationUI, (displayResults_pages _ _ _ _ _).1,
          (displayResults_pages _ _ _ _ _).2]

/-- The statements of `doSearch` before the `await` keep the page in range. -/
theorem doSearchBegin_ok (env : Env) (resetPage : Bool) (now : Int) (pg : Page)
    (h1 : JsNum.le 1 pg.currentPage = true) :
    BeginOk env pg (doSearchBegin env resetPage now pg) := by
  obtain ⟨hc, ht, hcall, hs⟩ := doSearchBegin_pages env resetPage now pg
  refine ⟨?_, ht, ?_, hcall, hs⟩
  · rw [hc]
    split
    · decide
    · exact h1
  · intro h2
    rw [hc, ht]
    split
    · exact JsNum.le_trans _ _ _ h1 h2
    · exact h2

/-- The statements of `changePage` before the `await` keep the page in
range. -/
theorem changePageBegin_ok (env : Env) (delta : Int) (now : Int) (pg : Page)
    (h1 : JsNum.le 1 pg.currentPage = true) :
    BeginOk env pg (changePageBegin env delta now pg) := by
  unfold changePageBegin
  simp only []
  split
  · rename_i hg
    simp only [Bool.and_eq_true, JsNum.ge] at hg
    obtain ⟨a, b, c, d, e⟩ := doSearchBegin_ok env false now
      { pg with currentPage := JsNum.add pg.currentPage (JsNum.ofInt delta) } hg.1
    exact ⟨a, b, fun _ => c hg.2, d, e⟩
  · refine ⟨h1, rfl, fun h => h, ?_, fun _ => rfl⟩
    intro call h
    cases h

/-- The statements of `quickSearch` before the `await` keep the page in
range. -/
theorem quickSearchBegin_ok (env : Env) (query : String) (now : Int) (pg : Page)
    (h1 : JsNum.le 1 pg.currentPage = true) :
    BeginOk env pg (quickSearchBegin env query now pg) := by
  unfold quickSearchBegin
  obtain ⟨a, b, c, d, e⟩ := doSearchBegin_ok env true now
    { pg with qValue := query, categoryValue := setSelectValue pg.categoryOptions "Semua",
              currentPage := 1 } rfl
  exact ⟨a, b, fun h => c (JsNum.le_trans _ _ _ h1 h), d, e⟩

/-- Every turn keeps `1 ≤ currentPage`. -/
theorem step_one_le (env : Env) (e : Event) (s : Session)
    (h : JsNum.le 1 s.page.currentPage = true) :
    JsNum.le 1 (step env e s).page.currentPage = true := by
  cases e with
  | typeQuery text => exact h
  | selectCategory value => exact h
  | doSearch resetPage now => exact (doSearchBegin_ok env resetPage now s.page h).1
  | changePage delta now => exact (changePageBegin_ok env delta now s.page h).1
  | quickSearch query now => exact (quickSearchBegin_ok env query now s.page h).1
  | resetSearch => exact h
  | settle i finish resp =>
    simp only [step]
    cases hp : s.pending[i]? with
    | none => exact h
    | some call =>
      simp only []
      rw [(doSearchSettle_pages env call finish resp s.page).1]
      exact h

/-- A handler started with no call suspended keeps the session in range. -/
theorem suspend_inRange (env : Env) (s : Session) (r : Page × Option Pending)
    (hok : BeginOk env s.page r) (h2 : InRange s) (hempty : s.pending.isEmpty = true) :
    InRange (suspend s r) := by
  obtain ⟨_, _, hle, hcall, _⟩ := hok
  have hnil : s.pending = [] := List.isEmpty_iff.mp hempty
  refine ⟨hle h2.1, ?_⟩
  intro call hmem
  simp only [suspend, hnil, List.nil_append, Option.mem_toList, Option.mem_def] at hmem
  exact hcall call hmem

/-- Every orderly turn keeps the session in range. -/
theorem step_inRange (env : Env) (e : Event) (s : Session)
    (h1 : JsNum.le 1 s.page.currentPage = true) (h2 : InRange s)
    (ho : orderlyEvent s e = true) : InRange (step env e s) := by
  cases e with
  | typeQuery text => exact h2
  | selectCategory value => exact h2
  | doSearch resetPage now =>
    exact suspend_inRange env s _ (doSearchBegin_ok env resetPage now s.page h1) h2 ho
  | changePage delta now =>
    exact suspend_inRange env s _ (changePageBegin_ok env delta now s.page h1) h2 ho
  | quickSearch query now =>
    exact suspend_inRange env s _ (quickSearchBegin_ok env query now s.page h1) h2 ho
  | resetSearch => exact h2
  | settle i finish resp =>
    simp only [step]
    simp only [orderlyEvent] at ho
    cases hp : s.pending[i]? with
    | none => exact h2
    | some call =>
      rw [hp] at ho
      simp only [] at ho ⊢
      have hmem : call ∈ s.pending := List.getElem?_mem hp
      have hpage : call.page = s.page.currentPage := h2.2 call hmem
      obtain ⟨hc, ht⟩ := doSearchSettle_pages env call finish resp s.page
      constructor
      · simp only []
        rw [hc, ht]
        rcases resp with _ | ⟨ok, body⟩
        · exact h2.1
        · cases ok
          · exact h2.1
          · cases body with
            | none => exact h2.1
            | some data =>
              simp only [covers] at ho
              rw [← hpage]
              exact ho
      · intro c hcmem
        simp only []
        rw [hc]
        exact h2.2 c ((List.eraseIdx_sublist _ _).subset hcmem)

/-- Both halves of the invariant along a session, from any session that
satisfies them. -/
theorem run_invariant (env : Env) (events : List Event) :
    ∀ s : Session, JsNum.le 1 s.page.currentPage = true →
      JsNum.le 1 (run env events s).page.currentPage = true ∧
      (InRange s → orderly env s events = true →
        JsNum.le (run env events s).page.currentPage (run env events s).page.totalPages
          = true) := by
  induction events with
  | nil =>
    intro s h1
    exact ⟨h1, fun h2 _ => h2.1⟩
  | cons e rest ih =>
    intro s h1
    have hstep := step_one_le env e s h1
    obtain ⟨ih1, ih2⟩ := ih (step env e s) hstep
    refine ⟨by simpa [run] using ih1, ?_⟩
    intro h2 ho
    simp only [orderly, Bool.and_eq_true] at ho
    have := ih2 (step_inRange env e s h1 h2 ho.1) ho.2
    simpa [run] using this

/-- Where the statement `s;` of line 386 throws, no call is ever suspended, so
every session that starts with none suspended is orderly. -/
theorem orderly_unbound (env : Env) (hs : env.sResolves = false) (events : List Event) :
    ∀ s : Session, s.pending = [] → orderly env s events = true := by
  induction events with
  | nil => intro s _; rfl
  | cons e rest ih =>
    intro s hnil
    have hstep : (step env e s).pending = [] := by
      cases e with
      | typeQuery text => exact hnil
      | selectCategory value => exact hnil
      | doSearch resetPage now =>
        simp [step, suspend, hnil, (doSearchBegin_pages env resetPage now s.page).2.2.2 hs]
      | changePage delta now =>
        simp only [step, suspend, hnil, List.nil_append, changePageBegin]
        split
        · simp [(doSearchBegin_pages env false now _).2.2.2 hs]
        · rfl
      | quickSearch query now =>
        simp [step, suspend, hnil, quickSearchBegin,
          (doSearchBegin_pages env true now _).2.2.2 hs]
      | resetSearch => exact hnil
      | settle i finish resp => simp [step, hnil]
    have hev : orderlyEvent s e = true := by
      cases e <;> simp [orderlyEvent, hnil]
    simp only [orderly, hev, Bool.true_and]
    exact ih _ hstep

/-- Where the statement `s;` of line 386 throws, every session from the
initial page state keeps `1 ≤ currentPage ≤ totalPages`: no request is ever in
flight, so the session is orderly. -/
theorem run_unbound_invariant (env : Env) (hs : env.sResolves = false) (events : List Event)
    (s : Session) (hc : s.page.currentPage = 1) (ht : s.page.totalPages = 1)
    (hp : s.pending = []) :
    JsNum.le 1 (run env events s).page.currentPage = true ∧
    JsNum.le (run env events s).page.currentPage (run env events s).page.totalPages = true := by
  have h1 : JsNum.le 1 s.page.currentPage = true := by rw [hc]; decide
  have h2 : InRange s := by
    refine ⟨by rw [hc, ht]; decide, ?_⟩
    intro call hmem
    rw [hp] at hmem
    cases hmem
  obtain ⟨a, b⟩ := run_invariant env events s h1
  exact ⟨a, b h2 (orderly_unbound env hs events s hp)⟩

/-- C1, as amended: from the initial page state (`currentPage = 1`,
`totalPages = 1`, no call in flight), after any session of query edits,
category selections, `doSearch`, `changePage`, `quickSearch` and `resetSearch`
calls with arbitrary integer `delta` and of arbitrary responses arriving in
any order, `1 ≤ currentPage`; and `currentPage ≤ totalPages` holds as well
when no such call starts while an earlier request is still in flight and every
successful response reports a page count (`data.pages || 1`) at least as large
as the page it was asked for. -/
theorem page_invariant (env : Env) (events : List Event) (s : Session)
    (hc : s.page.currentPage = 1) (ht : s.page.totalPages = 1) (hp : s.pending = []) :
    JsNum.le 1 (run env events s).page.currentPage = true ∧
    (orderly env s events = true →
      JsNum.le (run env events s).page.currentPage (run env events s).page.totalPages
        = true) := by
  have h1 : JsNum.le 1 s.page.currentPage = true := by rw [hc]; decide
  have h2 : InRange s := by
    refine ⟨by rw [hc, ht]; decide, ?_⟩
    intro call hmem
    rw [hp] at hmem
    cases hmem
  obtain ⟨a, b⟩ := run_invariant env events s h1
  exact ⟨a, b h2⟩

/-- C1 amended, on a session that searches and moves to page 2 of 3. -/
theorem page_invariant_witness :
    orderly envBound freshSession orderlySession = true ∧
    (run envBound orderlySession freshSession).page.currentPage = 2 ∧
    (run envBound orderlySession freshSession).page.totalPages = 3 ∧
    JsNum.le (run envBound orderlySession freshSession).page.currentPage
      (run envBound orderlySession freshSession).page.totalPages = true :=
  ⟨by decide, by decide, by decide,
    (page_invariant envBound orderlySession freshSession rfl rfl rfl).2 (by decide)⟩

/-- C1 as stated fails.  A search answered with 3 pages, a move to page 2
answered with 3 pages, then a move to page 3 answered with 1 page leave
`currentPage = 3` above `totalPages = 1`.  And two moves forward started
before either fetch settles, both answered with a page count that covers the
page asked for, leave `currentPage = 3` above `totalPages = 2`. -/
theorem page_invariant_counterexample :
    (run envBound shrinkingSession freshSession).page.currentPage = 3 ∧
    (run envBound shrinkingSession freshSession).page.totalPages = 1 ∧
    JsNum.le (run envBound shrinkingSession freshSession).page.currentPage
      (run envBound shrinkingSession freshSession).page.totalPages = false ∧
    (run envBound overlappingSession freshSession).page.currentPage = 3 ∧
    (run envBound overlappingSession freshSession).page.totalPages = 2 ∧
    JsNum.le (run envBound overlappingSession freshSession).page.currentPage
      (run envBound overlappingSession freshSession).page.totalPages = false := by
  decide

/-! ## The search request -/

/-- A decimal digit is left alone by the form serialiser. -/
theorem formEncodeChar_digit (m : Nat) (h : m < 10) :
    formEncodeChar (Nat.digitChar m) = [Nat.digitChar m] := by
  interval_cases m <;> decide

/-- The serialiser leaves a list of characters alone when it leaves each of
them alone. -/
theorem flatMap_formEncodeChar_fixed (l : List Char)
    (h : ∀ c ∈ l, formEncodeChar c = [c]) : l.flatMap formEncodeChar = l := by
  induction l with
  | nil => rfl
  | cons c rest ih =>
    have hc := h c (List.mem_cons_self _ _)
    have hr := ih (fun d hd => h d (List.mem_cons_of_mem _ hd))
    simp [List.flatMap_cons, hc, hr]

/-- The decimal digits of a number are left alone by the serialiser. -/
theorem toDigitsCore_fixed (fuel : Nat) :
    ∀ (n : Nat) (acc : List Char), (∀ c ∈ acc, formEncodeChar c = [c]) →
      ∀ c ∈ Nat.toDigitsCore 10 fuel n acc, formEncodeChar c = [c] := by
  induction fuel with
  | zero =>
    intro n acc hacc c hc
    exact hacc c (by simpa [Nat.toDigitsCore] using hc)
  | succ f ih =>
    intro n acc hacc c hc
    have hd : ∀ c ∈ Nat.digitChar (n % 10) :: acc, formEncodeChar c = [c] := by
      intro d hd
      rcases List.mem_cons.mp hd with rfl | hmem
      · exact formEncodeChar_digit _ (Nat.mod_lt _ (by decide))
      · exact hacc d hmem
    simp only [Nat.toDigitsCore] at hc
    split at hc
    · exact hd c hc
    · exact ih _ _ hd c hc

/-- The decimal text of a natural number is left alone by the serialiser. -/
theorem formEncode_natRepr (n : Nat) : formEncode (Nat.repr n) = Nat.repr n := by
  have h := flatMap_formEncodeChar_fixed (Nat.toDigits 10 n)
    (toDigitsCore_fixed _ n [] (fun _ h => absurd h (List.not_mem_nil _)))
  simp only [formEncode, Nat.repr, List.asString]
  rw [h]

/-- The serialiser works character by character. -/
theorem formEncode_append (a b : String) :
    formEncode (a ++ b) = formEncode a ++ formEncode b := by
  apply String.ext
  simp [formEncode, String.data_append, List.flatMap_append]

/-- The decimal text of an integer is left alone by the serialiser. -/
theorem formEncode_toString_int (n : Int) : formEncode (toString n) = toString n := by
  cases n with
  | ofNat m => exact formEncode_natRepr m
  | negSucc m =>
    show formEncode ("-" ++ Nat.repr (m + 1)) = "-" ++ Nat.repr (m + 1)
    rw [formEncode_append, formEncode_natRepr]
    rfl

/-- The shape of the URL of lines 387-397 for a page number below `10 ^ 21`:
`q`, `limit=20` and `page` in that order, then `category` exactly when the
selected category is not `"Semua"`. -/
theorem searchUrl_shape (env : Env) (q category : String) (page : Int)
    (hpage : page.natAbs < 10 ^ 21) :
    searchUrl env q category (JsNum.fin page)
      = "/search?q=" ++ formEncode q ++ "&limit=20&page=" ++ toString page ++
        (if category = "Semua" then "" else "&category=" ++ formEncode category) := by
  have h20 : numberText env RESULTS_PER_PAGE = "20" := by
    show (if (20 : Int).natAbs < 10 ^ 21 then toString (20 : Int)
      else env.largeNumberText 20) = "20"
    rw [if_pos (by decide)]
    decide
  have hn : numberText env (JsNum.fin page) = toString page := by
    show (if page.natAbs < 10 ^ 21 then toString page
      else env.largeNumberText page) = toString page
    rw [if_pos hpage]
  have h20e : formEncode "20" = "20" := by decide
  have hq : formEncode "q" = "q" := by decide
  have hl : formEncode "limit" = "limit" := by decide
  have hp : formEncode "page" = "page" := by decide
  have hc : formEncode "category" = "category" := by decide
  by_cases h : category = "Semua"
  · simp [searchUrl, paramsToString, h, String.intercalate, String.intercalate.go, h20, hn, h20e,
      hq, hl, hp, formEncode_toString_int, String.append_assoc]
    rfl
  · simp [searchUrl, paramsToString, h, String.intercalate, String.intercalate.go, h20, hn, h20e,
      hq, hl, hp, hc, formEncode_toString_int, String.append_assoc]
    rfl

/-- The requests `doSearch` logs on a non-blank query: one URL when the
statement `s;` of line 386 passes, none when it throws. -/
theorem doSearch_requests (env : Env) (resetPage : Bool) (w : SearchWorld) (pg : Page)
    (hq : truthy (jsTrim pg.qValue) = true) :
    (doSearch env resetPage w pg).requests
      = if env.sResolves then
          pg.requests ++ [searchUrl env (jsTrim pg.qValue) pg.categoryValue
            (if resetPage then 1 else pg.currentPage)]
        else pg.requests := by
  unfold doSearch doSearchBegin
  cases hs : env.sResolves
  · simp [hq, hs, searchFailed, displayError]
  · rcases w with ⟨start, finish, resp⟩
    rcases resp with _ | ⟨ok, body⟩
    · simp [hq, hs, doSearchSettle, searchFailed, displayError]
    · cases ok
      · simp [hq, hs, doSearchSettle, searchFailed, displayError]
      · cases body with
        | none => simp [hq, hs, doSearchSettle, searchFailed, displayError]
        | some data =>
          simp only [hq, hs, doSearchSettle, updatePaginationUI, displayResults]
          cases data.results with
          | none => simp
          | some results => by_cases h : results.length = 0 <;> simp [h]

/-- Where the statement opening the `try` block passes, `doSearch` on a
non-blank query with the current page `p` below `10 ^ 21` issues exactly one
request, to `/search?` followed by `q` (the trimmed text), `limit=20` and
`page` (1 when `resetPage` is set, `p` otherwise) in that order, each value in
`application/x-www-form-urlencoded` form (a space is written `+`), with
`category` appended exactly when the selected category is not `"Semua"`. -/
theorem doSearch_request_url (env : Env) (resetPage : Bool) (w : SearchWorld) (pg : Page)
    (p : Int) (hcp : pg.currentPage = JsNum.fin p) (hp : p.natAbs < 10 ^ 21)
    (hq : jsTrim pg.qValue ≠ "") (hs : env.sResolves = true) :
    (doSearch env resetPage w pg).requests
      = pg.requests ++
        ["/search?q=" ++ formEncode (jsTrim pg.qValue) ++ "&limit=20&page=" ++
          toString (if resetPage then 1 else p) ++
          (if pg.categoryValue = "Semua" then ""
            else "&category=" ++ formEncode pg.categoryValue)] := by
  have hq1 : truthy (jsTrim pg.qValue) = true := by simpa [truthy] using hq
  rw [doSearch_requests env resetPage w pg hq1, hs, hcp]
  cases resetPage
  · simp [searchUrl_shape env _ _ p hp]
  · simp [JsNum.one_eq, searchUrl_shape env _ _ 1 (by decide)]

/-- The request for the query "danau toba", category "Semua", page 1, where it
is issued: the space is written `+`. -/
theorem doSearch_request_url_example :
    (doSearch envBound true (pagesResponse 1) { freshPage with qValue := "danau toba" }).requests
      = ["/search?q=danau+toba&limit=20&page=1"] :=
  (doSearch_request_url envBound true (pagesResponse 1) { freshPage with qValue := "danau toba" }
    1 rfl (by decide) (by decide) rfl).trans (by decide)

/-- C2 fails on the code: with "danau toba" in the query box, category
"Semua" and page 1, on a hosting page that defines no global `s`, `doSearch`
issues no request at all - the statement `s;` that opens the `try` block
throws, the `catch` block shows the error panel - where the claim has exactly
one request to `/search?q=danau%20toba&limit=20&page=1`; no call is left
waiting for a response either. -/
theorem doSearch_issues_no_request :
    (doSearch envUnbound true (pagesResponse 1) { freshPage with qValue := "danau toba" }).requests
      = [] ∧
    (doSearch envUnbound true (pagesResponse 1) { freshPage with qValue := "danau toba" }).requests
      ≠ ["/search?q=danau%20toba&limit=20&page=1"] ∧
    (doSearch envUnbound true (pagesResponse 1) { freshPage with qValue := "danau toba" }).resultsBox
      = ResultsBox.error "Terjadi kesalahan saat mencari. Silakan coba lagi." ∧
    (doSearchBegin envUnbound true 0 { freshPage with qValue := "danau toba" }).2 = none := by
  decide

/-- On every hosting page where the statement `s;` throws, `doSearch` issues
no request, whatever the query, the category and the page. -/
theorem doSearch_unbound_requests (env : Env) (hs : env.sResolves = false) (resetPage : Bool)
    (w : SearchWorld) (pg : Page) :
    (doSearch env resetPage w pg).requests = pg.requests := by
  cases hq : truthy (jsTrim pg.qValue)
  · simp [doSearch, doSearchBegin, hq]
  · rw [doSearch_requests env resetPage w pg hq, hs]
    rfl

/-! ## The category selector -/

/-- The rebuilt options are `"Semua"` and the non-empty entries of the list. -/
theorem mem_rebuiltOptions (v : String) (categories : List String) :
    v ∈ rebuiltOptions categories ↔ v = "Semua" ∨ (v ∈ categories ∧ v ≠ "") := by
  simp [rebuiltOptions, List.mem_filter, truthy]

/-- What `loadCategories` does to the selector: for every previous value `v`
and every successfully loaded list `L`, the selector offers `"Semua"` followed
by the non-empty entries of `L`, and its value is `v` if `v` is among these
options, `"Semua"` if `v` is the empty string, and the empty string (no option
selected) otherwise. -/
theorem loadCategories_selection (pg : Page) (data : CategoriesData) (L : List String)
    (herr : truthyOpt data.error = false) (hL : data.categories = some L) :
    (loadCategories (some data) pg).categoryOptions = rebuiltOptions L ∧
    (pg.categoryValue ∈ rebuiltOptions L →
      (loadCategories (some data) pg).categoryValue = pg.categoryValue) ∧
    (pg.categoryValue = "" → (loadCategories (some data) pg).categoryValue = "Semua") ∧
    (pg.categoryValue ≠ "" → pg.categoryValue ∉ rebuiltOptions L →
      (loadCategories (some data) pg).categoryValue = "") := by
  simp only [loadCategories, hL, herr, Bool.false_eq_true, if_false]
  refine ⟨trivial, ?_, ?_, ?_⟩
  · intro hmem
    have hne : pg.categoryValue ≠ "" := by
      rcases (mem_rebuiltOptions _ _).mp hmem with h | h
      · rw [h]; decide
      · exact h.2
    simp [truthy, hne, setSelectValue, hmem]
  · intro h
    simp [truthy, h]
  · intro hne hnot
    simp [truthy, hne, setSelectValue, hnot]

/-- C7 fails on the code: with "Wisata" selected and the list `["Sejarah"]`
loaded, "Wisata" is not among the rebuilt options, yet the selector's value is
the empty string, not "Semua" - lines 143-145 assign the old value without
checking that it is still offered; a search for "toba" made afterwards sends
the empty category, `&category=`. -/
theorem loadCategories_leaves_blank :
    "Wisata" ∉ rebuiltOptions ["Sejarah"] ∧
    (loadCategories (some { error := none, categories := some ["Sejarah"] })
      wisataSelected).categoryOptions = ["Semua", "Sejarah"] ∧
    (loadCategories (some { error := none, categories := some ["Sejarah"] })
      wisataSelected).categoryValue = "" ∧
    (loadCategories (some { error := none, categories := some ["Sejarah"] })
      wisataSelected).categoryValue ≠ "Semua" ∧
    (doSearch envBound true (pagesResponse 1)
      { loadCategories (some { error := none, categories := some ["Sejarah"] }) wisataSelected
        with qValue := "toba" }).requests
      = ["/categories", "/search?q=toba&limit=20&page=1&category="] := by
  decide

/-! ## Failures of the corpus analysis -/

/-- C9, as amended: for every `/analyze` response with a 2xx status whose
payload carries a non-empty `error` field, `analyzeCorpus` ends with the
analysis modal shown, holding the inline error panel with that error, and the
analyze button re-enabled; for every response with a non-2xx status it ends
with the alert "Terjadi kesalahan saat menganalisis korpus." raised and the
button re-enabled, the modal's visibility and content being what they were. -/
theorem analyzeCorpus_failures (env : Env) (pg : Page) (code : Nat) :
    (∀ data : AnalysisData, truthyOpt data.error = true →
      (analyzeCorpus env (AnalyzeFetch.status true code (some data)) pg).analysisModalHidden
        = false ∧
      (analyzeCorpus env (AnalyzeFetch.status true code (some data)) pg).analysisContent
        = AnalysisContent.errorPanel (data.error.getD "") ∧
      (analyzeCorpus env (AnalyzeFetch.status true code (some data)) pg).analyzeBtnDisabled
        = false ∧
      (analyzeCorpus env (AnalyzeFetch.status true code (some data)) pg).alerts = pg.alerts) ∧
    (∀ body : Option AnalysisData,
      (analyzeCorpus env (AnalyzeFetch.status false code body) pg).analysisModalHidden
        = pg.analysisModalHidden ∧
      (analyzeCorpus env (AnalyzeFetch.status false code body) pg).analysisContent
        = pg.analysisContent ∧
      (analyzeCorpus env (AnalyzeFetch.status false code body) pg).analyzeBtnDisabled = false ∧
      (analyzeCorpus env (AnalyzeFetch.status false code body) pg).alerts
        = pg.alerts ++ ["Terjadi kesalahan saat menganalisis korpus."]) := by
  constructor
  · intro data herr
    simp [analyzeCorpus, displayAnalysis, herr]
  · intro body
    simp [analyzeCorpus, analyzeFailed]

/-- C9 amended, on a 200 response whose payload has the error
"index not found": the modal is shown with the error panel. -/
theorem analyzeCorpus_failures_witness :
    (analyzeCorpus envBound (AnalyzeFetch.status true 200 (some analysisError))
      freshPage).analysisModalHidden = false ∧
    (analyzeCorpus envBound (AnalyzeFetch.status true 200 (some analysisError))
      freshPage).analysisContent = AnalysisContent.errorPanel "index not found" :=
  ⟨((analyzeCorpus_failures envBound freshPage 200).1 analysisError (by decide)).1,
   ((analyzeCorpus_failures envBound freshPage 200).1 analysisError (by decide)).2.1⟩

/-- C9 as stated fails: on a 500 response - with or without an `error` field
in its payload - the analysis modal stays hidden and its content untouched,
and the failure is reported by an alert; the same happens on a 200 response
whose `error` field is the empty string and which has no category list. -/
theorem analyzeCorpus_failures_counterexample :
    (analyzeCorpus envBound (AnalyzeFetch.status false 500 none) freshPage).analysisModalHidden
      = true ∧
    (analyzeCorpus envBound (AnalyzeFetch.status false 500 none) freshPage).analysisContent
      = AnalysisContent.initial ∧
    (analyzeCorpus envBound (AnalyzeFetch.status false 500 (some analysisError))
      freshPage).analysisModalHidden = true ∧
    (analyzeCorpus envBound (AnalyzeFetch.status false 500 (some analysisError))
      freshPage).alerts = ["Terjadi kesalahan saat menganalisis korpus."] ∧
    (analyzeCorpus envBound
      (AnalyzeFetch.status true 200 (some { analysisError with error := some "" }))
      freshPage).analysisModalHidden = true := by
  decide

/-! ## Escaping of titles and URLs -/

/-- No character is serialised to text holding `<`. -/
theorem escapeTextChar_no_lt (c : Char) : '<' ∉ escapeTextChar c := by
  unfold escapeTextChar
  split
  · decide
  · split
    · decide
    · split
      · decide
      · split
        · decide
        · rename_i h _
          simpa using Ne.symm h

/-- What `escapeHtml` returns never holds `<`: as element content (the title
inside `h3`) it is inert. -/
theorem escapeHtml_inertInText (text : String) : inertInText (escapeHtml text) = true := by
  have h : '<' ∉ (escapeHtml text).data := by
    unfold escapeHtml
    split
    · simp
    · simp only [List.mem_flatMap, not_exists, not_and]
      intro c _
      exact escapeTextChar_no_lt c
  simpa [inertInText] using h

/-- C6 fails on the code: for the result `quotedResult`, the texts placed
between the double quotes of `href` and of `aria-label` still hold the double
quotes of the URL and of the title, so each closes its attribute value early
(what follows is read as further attributes of the anchor); `escapeHtml`
returns both strings unchanged. -/
theorem escapeHtml_keeps_double_quote :
    escapeHtml "/doc/1\" onclick=\"alert(2)" = "/doc/1\" onclick=\"alert(2)" ∧
    (renderCard envBound 1 0 quotedResult).link
      = some { href := "/doc/1\" onclick=\"alert(2)"
               ariaLabel := "Baca dokumen Toba\" onmouseover=\"alert(1)" } ∧
    ((renderCard envBound 1 0 quotedResult).link.map (fun l => inertInQuotedAttr l.href))
      = some false ∧
    ((renderCard envBound 1 0 quotedResult).link.map (fun l => inertInQuotedAttr l.ariaLabel))
      = some false := by
  decide

/-! ## Category colours -/

/-- C10 fails on the code: the category "Tradisi" gets the amber badge on a
result card and the default bar in the analysis modal, and the category
"Wisata Sejarah" gets the blue badge and the green bar. -/
theorem category_colours_differ :
    badgeFamily (categoryClass envBound (some "Tradisi")) = Family.amber ∧
    barFamily (barColorClass envBound (some "Tradisi")) = Family.default ∧
    badgeFamily (categoryClass envBound (some "Wisata Sejarah")) = Family.blue ∧
    barFamily (barColorClass envBound (some "Wisata Sejarah")) = Family.green := by
  decide

/-- Where the two mappings agree: a non-empty name whose lower-cased form does
not contain "tradisi" and does not contain "sejarah" together with "wisata" or
"budaya" gets the same family as badge and as bar. -/
theorem category_colours_agree (env : Env) (name : String) (hne : name ≠ "")
    (ht : includes (env.toLowerCase name) "tradisi" = false)
    (hs : includes (env.toLowerCase name) "sejarah" = true →
      includes (env.toLowerCase name) "wisata" = false ∧
      includes (env.toLowerCase name) "budaya" = false) :
    badgeFamily (categoryClass env (some name)) = barFamily (barColorClass env (some name)) := by
  have htr : truthy name = true := by simpa [truthy] using hne
  simp only [categoryClass, barColorClass, truthyOpt, orElse, htr, if_true, Option.getD_some]
  cases h1 : includes (env.toLowerCase name) "sejarah"
  · cases h2 : includes (env.toLowerCase name) "wisata"
    · cases h3 : includes (env.toLowerCase name) "budaya"
      · simp only [ht, Bool.false_eq_true, if_false]; decide
      · simp only [Bool.false_eq_true, if_false, if_true]; decide
    · simp only [Bool.false_eq_true, if_false, if_true]; decide
  · obtain ⟨h2, h3⟩ := hs h1
    simp only [h2, h3, Bool.false_eq_true, if_false, if_true]; decide

end GatotKaca
